import Mathlib

/-!
Verification of the LAWBILL tariff calculation and compliance engine.

This file shallowly embeds the calculation core of the repository:

* `src/lib/utils.ts` — `roundToMinutes`, `calculateVAT`;
* `src/lib/tariff-engine.ts` — `TariffEngine.calculateBillItem`,
  `TariffEngine.calculateBill`;
* `src/lib/enhanced-tariff-engine.ts` — `EnhancedTariffEngine.getTariffForDate`,
  `findTariffItem`, `calculateTariff`, `validateQuantityAndUnits`;
* `src/lib/billing-scope-engine.ts` — `BillingScopeEngine.validateBillingScope`
  and its helpers;
* `src/lib/holiday-blackout-engine.ts` — `HolidayBlackoutEngine`
  blackout/deadline date arithmetic.

Modelling conventions: JavaScript numbers that carry money or quantities
become `ℚ` (exact arithmetic); timestamps obtained from `Date.getTime()` in
the enhanced engine become `ℤ`; the blackout engine, which inspects calendar
components, works on a civil-date structure ordered lexicographically
(year, month, day), which agrees with timestamp order on valid dates.
JavaScript truthiness tests on optional numbers (`if (x.capAmount && …)`)
are modelled explicitly: `none` and `some 0` are both falsy.  Unbounded
`while` loops over dates are modelled with explicit fuel.  Fields whose
values are nondeterministic in the source (`Date.now()`-based ids, creation
timestamps) are omitted from the embedded records.
-/

/-- JavaScript `String.prototype.includes`: is `sub` a substring of `s`? -/
def strIncludes (s sub : String) : Bool :=
  decide (sub.toList <:+: s.toList)

/-- JavaScript truthiness of an optional number: `undefined` and `0` are falsy. -/
def jsTruthy (o : Option ℚ) : Bool :=
  match o with
  | none => false
  | some x => decide (x ≠ 0)

/-- JavaScript falsiness of an optional string: `undefined` and `""` are falsy. -/
def jsStrFalsy (o : Option String) : Bool :=
  match o with
  | none => true
  | some s => s == ""

/-- JavaScript `String.prototype.toLowerCase`, modelled on the character
list (ASCII-adequate for the engine's keyword data). -/
def strToLower (s : String) : String := ⟨s.data.map Char.toLower⟩

/-- Item category, from `sa-tariffs.ts`: `'fees' | 'disbursements' | 'counsel'`. -/
inductive Category where
  | fees
  | disbursements
  | counsel
deriving DecidableEq, Repr

/-- `TariffItem` from `src/data/sa-tariffs.ts`. -/
structure TariffItem where
  itemNumber : String
  label : String
  description : String
  rate : ℚ
  unit : String
  minimumUnits : Option ℚ := none
  maximumUnits : Option ℚ := none
  capAmount : Option ℚ := none
  vatApplicable : Bool
  category : Category
  subcategory : Option String := none
deriving DecidableEq, Repr

/-- `CourtTariff` from `src/data/sa-tariffs.ts`; the effective dates are the
`Date.getTime()` images of the source's ISO strings. -/
structure CourtTariff where
  courtType : String
  courtCode : String
  scale : String
  effectiveFrom : ℤ
  effectiveTo : Option ℤ := none
  items : List TariffItem
deriving DecidableEq, Repr

/-- `roundToMinutes` from `src/lib/utils.ts`:
`Math.ceil(hours / (roundingMinutes/60)) * (roundingMinutes/60)`. -/
def roundToMinutes (hours : ℚ) (roundingMinutes : ℚ) : ℚ :=
  let roundingHours := roundingMinutes / 60
  (Rat.ceil (hours / roundingHours) : ℤ) * roundingHours

/-- `calculateVAT` from `src/lib/utils.ts`. -/
def calculateVAT (amount vatRate : ℚ) : ℚ :=
  amount * vatRate

/-- The deterministic fields of `BillItem` from `src/lib/tariff-engine.ts`
(`id`, `createdBy` and `createdAt` are nondeterministic or caller metadata). -/
structure BillItem where
  tariffItemId : String
  description : String
  units : ℚ
  rateApplied : ℚ
  amountExVat : ℚ
  vat : ℚ
  totalAmount : ℚ
  source : Option String := none
deriving DecidableEq, Repr

/-- `BillCalculation` from `src/lib/tariff-engine.ts`. -/
structure BillCalculation where
  items : List BillItem
  subtotalFees : ℚ
  subtotalDisbursements : ℚ
  subtotalCounsel : ℚ
  totalExVat : ℚ
  totalVat : ℚ
  grandTotal : ℚ
deriving DecidableEq, Repr

/-- `TariffEngine.getTariff`. -/
def getTariff (tariffs : List CourtTariff) (courtCode scale : String) : Option CourtTariff :=
  tariffs.find? (fun t => t.courtCode == courtCode && t.scale == scale)

/-- `TariffEngine.getTariffItem`. -/
def getTariffItem (tariffs : List CourtTariff) (courtCode scale itemNumber : String) :
    Option TariffItem :=
  match getTariff tariffs courtCode scale with
  | none => none
  | some tariff => tariff.items.find? (fun i => i.itemNumber == itemNumber)

/-- The source's minimum-units clamp `if (item.minimumUnits && q < item.minimumUnits)`
(a zero minimum is falsy and ignored). -/
def jsClampMin (minimumUnits : Option ℚ) (q : ℚ) : ℚ :=
  match minimumUnits with
  | some m => if m ≠ 0 ∧ q < m then m else q
  | none => q

/-- The source's maximum-units clamp `if (item.maximumUnits && q > item.maximumUnits)`. -/
def jsClampMax (maximumUnits : Option ℚ) (q : ℚ) : ℚ :=
  match maximumUnits with
  | some m => if m ≠ 0 ∧ q > m then m else q
  | none => q

/-- The source's cap `if (item.capAmount && amount > item.capAmount)`
(a zero cap is falsy and ignored). -/
def jsApplyCap (capAmount : Option ℚ) (amount : ℚ) : ℚ :=
  match capAmount with
  | some c => if c ≠ 0 ∧ amount > c then c else amount
  | none => amount

/-- `TariffEngine.calculateBillItem` from `src/lib/tariff-engine.ts`.
`vatRate` and `roundingMinutes` are the engine's configuration fields. -/
def calculateBillItem (tariffs : List CourtTariff) (vatRate roundingMinutes : ℚ)
    (courtCode scale itemNumber : String) (units : ℚ)
    (description : Option String := none) (source : Option String := none) :
    Option BillItem :=
  match getTariffItem tariffs courtCode scale itemNumber with
  | none => none
  | some tariffItem =>
    let adjustedUnits0 :=
      if tariffItem.unit == "per hour" then roundToMinutes units roundingMinutes else units
    let adjustedUnits := jsClampMax tariffItem.maximumUnits
      (jsClampMin tariffItem.minimumUnits adjustedUnits0)
    let amountExVat := jsApplyCap tariffItem.capAmount (adjustedUnits * tariffItem.rate)
    let vat := if tariffItem.vatApplicable then calculateVAT amountExVat vatRate else 0
    some
      { tariffItemId := courtCode ++ "-" ++ scale ++ "-" ++ itemNumber
        description := description.getD tariffItem.description
        units := adjustedUnits
        rateApplied := tariffItem.rate
        amountExVat := amountExVat
        vat := vat
        totalAmount := amountExVat + vat
        source := source }

/-- `TariffEngine.calculateBill` from `src/lib/tariff-engine.ts`. -/
def calculateBill (items : List BillItem) : BillCalculation :=
  let fees := items.filter fun i =>
    jsStrFalsy i.source || i.source == some "fees" || strIncludes i.tariffItemId "-"
  let disbursements := items.filter fun i => i.source == some "disbursement"
  let counsel := items.filter fun i => i.source == some "counsel"
  let subtotalFees := fees.foldl (fun sum i => sum + i.amountExVat) 0
  let subtotalDisbursements := disbursements.foldl (fun sum i => sum + i.amountExVat) 0
  let subtotalCounsel := counsel.foldl (fun sum i => sum + i.amountExVat) 0
  let totalExVat := subtotalFees + subtotalDisbursements + subtotalCounsel
  let totalVat := items.foldl (fun sum i => sum + i.vat) 0
  { items := items
    subtotalFees := subtotalFees
    subtotalDisbursements := subtotalDisbursements
    subtotalCounsel := subtotalCounsel
    totalExVat := totalExVat
    totalVat := totalVat
    grandTotal := totalExVat + totalVat }

/-! ## Enhanced tariff engine (`src/lib/enhanced-tariff-engine.ts`) -/

/-- Bill type enumeration from `enhanced-tariff-engine.ts` / `billing-scope-engine.ts`. -/
inductive BillType where
  | partyAndParty
  | attorneyAndClient
  | ownClient
deriving DecidableEq, Repr

/-- The deterministic fields of `BillLineItem` from `enhanced-tariff-engine.ts`:
`date` is the `Date.getTime()` image of the ISO date string; the optional
`isVouched` flag is modelled as a `Bool` (absent = `false`, matching the
source's truthiness test `!lineItem.isVouched`). -/
structure BillLineItem where
  date : ℤ
  tariffCode : String
  quantity : ℚ
  unit : String
  isVouched : Bool := false
deriving DecidableEq, Repr

/-- The fields of `TariffCalculationContext` read by `calculateTariff`. -/
structure TariffCalculationContext where
  billType : BillType
  isVATVendor : Bool
deriving DecidableEq, Repr

/-- Compliance verdict part of `TariffLookupResult`. -/
structure ComplianceVerdict where
  isCompliant : Bool
  issues : List String
  recommendations : List String
deriving DecidableEq, Repr

/-- `TariffLookupResult` from `enhanced-tariff-engine.ts` (`tariffVersion` and
`effectiveDate` are display strings derived from the tariff record). -/
structure TariffLookupResult where
  item : TariffItem
  effectiveRate : ℚ
  effectiveDate : ℤ
  calculatedAmount : ℚ
  vatAmount : ℚ
  totalAmount : ℚ
  warnings : List String
  compliance : ComplianceVerdict
deriving DecidableEq, Repr

/-- The engine constant `EnhancedTariffEngine.VAT_RATE = 0.15`. -/
def VAT_RATE : ℚ := 15 / 100

/-- `EnhancedTariffEngine.getTariffForDate`, applied to the cache entry for the
forum's `(courtType, scale)` key (the cache groups `allTariffs` by that key and
sorts each group by `effectiveFrom`, newest first).  The source compares
millisecond timestamps; an absent `effectiveTo` is replaced by `Date.now()`,
modelled by the explicit `now` argument.  If no version's closed range contains
the work date, the most recent version with `effectiveFrom ≤ workDate` is
returned. -/
def getTariffForDate (tariffs : List CourtTariff) (now workDate : ℤ) : Option CourtTariff :=
  match tariffs.find? (fun t =>
      decide (t.effectiveFrom ≤ workDate) && decide (workDate ≤ t.effectiveTo.getD now)) with
  | some t => some t
  | none => tariffs.find? (fun t => decide (t.effectiveFrom ≤ workDate))

/-- `EnhancedTariffEngine.findTariffItem`: exact item-number match first, then a
case-insensitive substring match against label/description. -/
def findTariffItem (tariff : CourtTariff) (tariffCode : String) : Option TariffItem :=
  match tariff.items.find? (fun i => i.itemNumber == tariffCode) with
  | some i => some i
  | none =>
    let searchTerm := strToLower tariffCode
    tariff.items.find? (fun i =>
      strIncludes (strToLower i.label) searchTerm || strIncludes (strToLower i.description) searchTerm)

/-- `EnhancedTariffEngine.validateQuantityAndUnits`: returns the `(warnings,
issues)` pushed by the source, in push order. -/
def validateQuantityAndUnits (lineItem : BillLineItem) (tariffItem : TariffItem) :
    List String × List String :=
  let issues :=
    (if lineItem.quantity ≤ 0 then ["Quantity must be greater than zero"] else []) ++
    (if lineItem.unit ≠ tariffItem.unit then
      ["Unit mismatch: expected " ++ tariffItem.unit ++ ", got " ++ lineItem.unit] else [])
  let warnings :=
    (if tariffItem.unit = "per hour" ∧ lineItem.quantity > 24 then
      ["More than 24 hours in a single day may require justification"] else []) ++
    (if tariffItem.unit = "per page" ∧ lineItem.quantity > 1000 then
      ["Large page counts may require justification"] else [])
  (warnings, issues)

/-- `EnhancedTariffEngine.applyBillTypeConstraints`: only pushes
recommendations (its `issues` parameter is never written). -/
def applyBillTypeConstraints (tariffItem : TariffItem) (billType : BillType) : List String :=
  if billType = BillType.partyAndParty then
    (if tariffItem.category = Category.disbursements ∧ tariffItem.subcategory = some "admin" then
      ["Administrative disbursements may not be recoverable on party-and-party basis"] else []) ++
    (if tariffItem.subcategory = some "travel" ∧ ¬ strIncludes tariffItem.description "necessary" then
      ["Travel costs must be necessary and reasonable for party-and-party recovery"] else [])
  else []

/-- `EnhancedTariffEngine.checkVoucherRequirements`. -/
def checkVoucherRequirements (tariffItem : TariffItem) (lineItem : BillLineItem) : List String :=
  let requiresVoucher :=
    tariffItem.category = Category.disbursements ∨ tariffItem.subcategory = some "travel" ∨
      tariffItem.rate = 0
  if requiresVoucher ∧ lineItem.isVouched = false then
    [tariffItem.label ++ " requires voucher/proof of payment"]
  else []

/-- `EnhancedTariffEngine.calculateTariff` from `enhanced-tariff-engine.ts`.
The thrown errors become `Except.error`. -/
def calculateTariff (tariffs : List CourtTariff) (now : ℤ)
    (lineItem : BillLineItem) (context : TariffCalculationContext) :
    Except String TariffLookupResult :=
  match getTariffForDate tariffs now lineItem.date with
  | none => Except.error "No tariff found for forum on work date"
  | some tariff =>
    match findTariffItem tariff lineItem.tariffCode with
    | none => Except.error ("Tariff item " ++ lineItem.tariffCode ++ " not found in tariff")
    | some tariffItem =>
      let vres := validateQuantityAndUnits lineItem tariffItem
      let recommendations := applyBillTypeConstraints tariffItem context.billType
      let effectiveRate := tariffItem.rate
      let quantity1 := jsClampMin tariffItem.minimumUnits lineItem.quantity
      let minWarnings :=
        match tariffItem.minimumUnits with
        | some m => if m ≠ 0 ∧ lineItem.quantity < m then
            ["Quantity rounded up to minimum " ++ toString m ++ " " ++ tariffItem.unit] else []
        | none => []
      let quantity := jsClampMax tariffItem.maximumUnits quantity1
      let maxWarnings :=
        match tariffItem.maximumUnits with
        | some m => if m ≠ 0 ∧ quantity1 > m then
            ["Quantity capped at maximum " ++ toString m ++ " " ++ tariffItem.unit] else []
        | none => []
      let calculatedAmount0 := effectiveRate * quantity
      let calculatedAmount := jsApplyCap tariffItem.capAmount calculatedAmount0
      let capWarnings :=
        match tariffItem.capAmount with
        | some c => if c ≠ 0 ∧ calculatedAmount0 > c then
            ["Amount capped at R" ++ toString c] else []
        | none => []
      let vatAmount :=
        if tariffItem.vatApplicable = true ∧ context.isVATVendor = true then
          calculatedAmount * VAT_RATE
        else 0
      let voucherIssues := checkVoucherRequirements tariffItem lineItem
      let issues := vres.2 ++ voucherIssues
      Except.ok
        { item := tariffItem
          effectiveRate := effectiveRate
          effectiveDate := tariff.effectiveFrom
          calculatedAmount := calculatedAmount
          vatAmount := vatAmount
          totalAmount := calculatedAmount + vatAmount
          warnings := vres.1 ++ minWarnings ++ maxWarnings ++ capWarnings
          compliance :=
            { isCompliant := issues.length = 0
              issues := issues
              recommendations := recommendations } }

/-! ## Billing scope engine (`src/lib/billing-scope-engine.ts`) -/

/-- `CostsOrder` from `billing-scope-engine.ts`. -/
inductive CostsOrder where
  | costsInTheCause
  | costsReserved
  | wastedCosts
  | punitiveScale
  | noOrder
deriving DecidableEq, Repr

/-- Taxation risk levels. -/
inductive TaxationRisk where
  | low
  | medium
  | high
deriving DecidableEq, Repr

/-- `BillingScopeResult` from `billing-scope-engine.ts`. -/
structure BillingScopeResult where
  allowed : Bool
  reason : Option String := none
  adjustedRate : Option ℚ := none
  cappedAmount : Option ℚ := none
  requiresVoucher : Bool
  taxationRisk : TaxationRisk
deriving DecidableEq, Repr

/-- `BillingScopeContext` from `billing-scope-engine.ts` (the `workDate` field
is only forwarded to the rate lookup and is folded into the lookup parameter
below). -/
structure BillingScopeContext where
  billType : BillType
  costsOrder : CostsOrder
  itemCode : String
  description : String
  amount : ℚ
  isNecessary : Bool
  isReasonable : Bool
  hasVoucher : Bool
  courtType : String
  scale : String
deriving DecidableEq, Repr

/-- The TS string literal denoting a costs order. -/
def costsOrderName (costsOrder : CostsOrder) : String :=
  match costsOrder with
  | CostsOrder.costsInTheCause => "costs-in-the-cause"
  | CostsOrder.costsReserved => "costs-reserved"
  | CostsOrder.wastedCosts => "wasted-costs"
  | CostsOrder.punitiveScale => "punitive-scale"
  | CostsOrder.noOrder => "no-order"

/-- `BillingScopeEngine.isCostsOrderRecoverable`. -/
def isCostsOrderRecoverable (costsOrder : CostsOrder) : Bool :=
  [CostsOrder.costsInTheCause, CostsOrder.punitiveScale, CostsOrder.wastedCosts].contains
    costsOrder

/-- `BillingScopeEngine.getPartyAndPartyRestrictions`: `(code, keyword)` pairs. -/
def getPartyAndPartyRestrictions : List (String × String) :=
  [("INTERNAL", "internal consultation"),
   ("OFFICE", "office conference"),
   ("RESEARCH", "legal research"),
   ("ADMIN", "administrative"),
   ("TRAVEL_LOCAL", "local travel"),
   ("PHOTOCOPY", "photocopying"),
   ("TELEPHONE", "telephone call")]

/-- `BillingScopeEngine.getAttorneyClientProhibitions`. -/
def getAttorneyClientProhibitions : List (String × String) :=
  [("KICKBACK", "referral fee"),
   ("PERSONAL", "personal expense"),
   ("UNETHICAL", "contingency fee")]

/-- `BillingScopeEngine.requiresVoucherEvidence`. -/
def requiresVoucherEvidence (itemCode : String) : Bool :=
  ["SHERIFF", "MEDICAL", "EXPERT", "TRANSCRIPT", "TRAVEL_LONG", "ACCOMMODATION",
   "COURT_FEES"].any (fun code => strIncludes itemCode code)

/-- `BillingScopeEngine.checkEthicsViolations`. -/
def checkEthicsViolations (context : BillingScopeContext) : List String :=
  (if context.amount > 100000 then
    ["Potentially excessive fee - requires justification"] else []) ++
  (if strIncludes (strToLower context.description) "referral" ∨
      strIncludes (strToLower context.description) "commission" then
    ["Possible fee sharing with non-practitioner"] else []) ++
  (if strIncludes (strToLower context.description) "contingency" ∨
      strIncludes (strToLower context.description) "success fee" then
    ["Contingency fees prohibited in South Africa"] else [])

/-- `BillingScopeEngine.assessTaxationRisk`. -/
def assessTaxationRisk (context : BillingScopeContext) (billType : BillType) : TaxationRisk :=
  let base : ℕ :=
    match billType with
    | BillType.partyAndParty => 3
    | BillType.attorneyAndClient => 1
    | BillType.ownClient => 0
  let riskScore := base +
    (if context.amount > 10000 then 2 else 0) +
    (if context.amount > 50000 then 3 else 0) +
    (if context.hasVoucher = false ∧ requiresVoucherEvidence context.itemCode = true then 2
      else 0) +
    (if context.isNecessary = false then 3 else 0) +
    (if context.isReasonable = false then 2 else 0)
  if riskScore ≥ 6 then TaxationRisk.high
  else if riskScore ≥ 3 then TaxationRisk.medium
  else TaxationRisk.low

/-- The rate record returned by `enhancedTariffEngine.lookupTariffItem`.

Modelled from the spec: `billing-scope-engine.ts` calls
`enhancedTariffEngine.lookupTariffItem(itemCode, courtType, scale, workDate)`,
but no such method exists in the sources (`enhanced-tariff-engine.ts` exports
no `lookupTariffItem`); only its result shape (`found`, `item.rate`,
`item.cap`) is visible at the call site.  It is the Tariff Repository
`resolveRate` lookup of spec §4.1, so it is modelled as an abstract lookup
parameter producing a rate and optional cap. -/
structure ScaleLookupItem where
  rate : ℚ
  cap : Option ℚ := none
deriving DecidableEq, Repr

/-- `BillingScopeEngine.applyScaleLimitations`, parameterised by the missing
`lookupTariffItem` collaborator (see `ScaleLookupItem`). -/
def applyScaleLimitations (lookupItem : BillingScopeContext → Option ScaleLookupItem)
    (context : BillingScopeContext) : Option ℚ × Option ℚ :=
  match lookupItem context with
  | none => (none, none)
  | some item =>
    let cappedAmount :=
      match item.cap with
      | some c => if c ≠ 0 ∧ context.amount > c then c else context.amount
      | none => context.amount
    let adjustedRate :=
      if context.costsOrder = CostsOrder.punitiveScale then item.rate * (3 / 2) else item.rate
    (some adjustedRate, some cappedAmount)

/-- `BillingScopeEngine.validatePartyAndParty`. -/
def validatePartyAndParty (lookupItem : BillingScopeContext → Option ScaleLookupItem)
    (context : BillingScopeContext) : BillingScopeResult :=
  if isCostsOrderRecoverable context.costsOrder = false then
    { allowed := false
      reason := some ("Costs order " ++ costsOrderName context.costsOrder ++
        " does not permit recovery")
      requiresVoucher := false
      taxationRisk := TaxationRisk.high }
  else if context.isNecessary = false then
    { allowed := false
      reason := some "Item not necessary for the conduct of the case"
      requiresVoucher := false
      taxationRisk := TaxationRisk.high }
  else if context.isReasonable = false then
    { allowed := false
      reason := some "Item not reasonable in amount or nature"
      requiresVoucher := false
      taxationRisk := TaxationRisk.high }
  else if getPartyAndPartyRestrictions.any (fun r =>
      strIncludes context.itemCode r.1 || strIncludes (strToLower context.description) r.2) then
    { allowed := false
      reason := some "Item not recoverable on party-and-party basis"
      requiresVoucher := false
      taxationRisk := TaxationRisk.high }
  else if requiresVoucherEvidence context.itemCode = true ∧ context.hasVoucher = false then
    { allowed := false
      reason := some "Voucher required for disbursement recovery"
      requiresVoucher := true
      taxationRisk := TaxationRisk.high }
  else
    let scaleResult := applyScaleLimitations lookupItem context
    { allowed := true
      adjustedRate := scaleResult.1
      cappedAmount := scaleResult.2
      requiresVoucher := requiresVoucherEvidence context.itemCode
      taxationRisk := assessTaxationRisk context BillType.partyAndParty }

/-- `BillingScopeEngine.validateAttorneyAndClient`. -/
def validateAttorneyAndClient (context : BillingScopeContext) : BillingScopeResult :=
  if context.isReasonable = false then
    { allowed := false
      reason := some "Item not reasonable for attorney-and-client billing"
      requiresVoucher := false
      taxationRisk := TaxationRisk.medium }
  else if getAttorneyClientProhibitions.any (fun r =>
      strIncludes context.itemCode r.1 || strIncludes (strToLower context.description) r.2) then
    { allowed := false
      reason := some "Item prohibited in attorney-and-client billing"
      requiresVoucher := false
      taxationRisk := TaxationRisk.high }
  else if (requiresVoucherEvidence context.itemCode = true ∧ context.amount > 500) ∧
      context.hasVoucher = false then
    { allowed := true
      reason := some "Consider obtaining voucher for amounts over R500"
      requiresVoucher := true
      taxationRisk := TaxationRisk.medium }
  else
    { allowed := true
      requiresVoucher := requiresVoucherEvidence context.itemCode = true ∧ context.amount > 500
      taxationRisk := assessTaxationRisk context BillType.attorneyAndClient }

/-- `BillingScopeEngine.validateOwnClient`. -/
def validateOwnClient (context : BillingScopeContext) : BillingScopeResult :=
  if (checkEthicsViolations context).length > 0 then
    { allowed := false
      reason := some ("Ethics violation: " ++
        String.intercalate ", " (checkEthicsViolations context))
      requiresVoucher := false
      taxationRisk := TaxationRisk.high }
  else if context.amount > 50000 ∧ context.isReasonable = false then
    { allowed := true
      reason := some "High amount - ensure reasonableness is documented"
      requiresVoucher := false
      taxationRisk := TaxationRisk.medium }
  else
    { allowed := true
      requiresVoucher := false
      taxationRisk := TaxationRisk.low }

/-- `BillingScopeEngine.validateBillingScope`. -/
def validateBillingScope (lookupItem : BillingScopeContext → Option ScaleLookupItem)
    (context : BillingScopeContext) : BillingScopeResult :=
  match context.billType with
  | BillType.partyAndParty => validatePartyAndParty lookupItem context
  | BillType.attorneyAndClient => validateAttorneyAndClient context
  | BillType.ownClient => validateOwnClient context

/-! ## Holiday blackout engine (`src/lib/holiday-blackout-engine.ts`)

JavaScript `Date` values at local midnight are modelled by civil dates
`(year, month, day)` with 1-based months; comparison of `Date` objects by
timestamp corresponds to lexicographic comparison of the triple on valid
dates, and `getMonth() === 0` corresponds to `month = 1`. -/

/-- A civil calendar date (1-based month). -/
structure CivilDate where
  year : ℤ
  month : ℕ
  day : ℕ
deriving DecidableEq, Repr

/-- Timestamp (lexicographic) order on civil dates. -/
def dateLe (a b : CivilDate) : Prop :=
  a.year < b.year ∨ (a.year = b.year ∧
    (a.month < b.month ∨ (a.month = b.month ∧ a.day ≤ b.day)))

instance (a b : CivilDate) : Decidable (dateLe a b) := by
  unfold dateLe
  exact inferInstance

/-- Gregorian leap-year rule (as implemented by JavaScript `Date`). -/
def isLeapYear (y : ℤ) : Bool :=
  (y % 4 == 0 && y % 100 != 0) || y % 400 == 0

/-- Number of days in a month (1-based), following the Gregorian calendar. -/
def daysInMonth (y : ℤ) (m : ℕ) : ℕ :=
  if m = 2 then (if isLeapYear y then 29 else 28)
  else if m = 4 ∨ m = 6 ∨ m = 9 ∨ m = 11 then 30
  else 31

/-- The next calendar day (JavaScript `setDate(getDate() + 1)`). -/
def nextDay (d : CivilDate) : CivilDate :=
  if d.day < daysInMonth d.year d.month then ⟨d.year, d.month, d.day + 1⟩
  else if d.month < 12 then ⟨d.year, d.month + 1, 1⟩
  else ⟨d.year + 1, 1, 1⟩

/-- The previous calendar day (JavaScript `setDate(getDate() - 1)`). -/
def prevDay (d : CivilDate) : CivilDate :=
  if 1 < d.day then ⟨d.year, d.month, d.day - 1⟩
  else if 1 < d.month then ⟨d.year, d.month - 1, daysInMonth d.year (d.month - 1)⟩
  else ⟨d.year - 1, 12, 31⟩

/-- `addDays n d` applies `nextDay` `n` times (JavaScript `setDate(+n)`). -/
def addDays : ℕ → CivilDate → CivilDate
  | 0, d => d
  | n + 1, d => addDays n (nextDay d)

/-- Days since the Unix epoch for a civil date (Howard Hinnant's
`days_from_civil` algorithm, with floor division). -/
def daysFromCivil (d : CivilDate) : ℤ :=
  let y : ℤ := if d.month ≤ 2 then d.year - 1 else d.year
  let era : ℤ := Int.fdiv y 400
  let yoe : ℤ := y - era * 400
  let mp : ℤ := (d.month : ℤ) + (if d.month > 2 then -3 else 9)
  let doy : ℤ := Int.fdiv (153 * mp + 2) 5 + (d.day : ℤ) - 1
  let doe : ℤ := yoe * 365 + Int.fdiv yoe 4 - Int.fdiv yoe 100 + doy
  era * 146097 + doe - 719468

/-- JavaScript `Date.getDay()`: 0 = Sunday … 6 = Saturday
(1970-01-01 was a Thursday, day number 4). -/
def dayOfWeek (d : CivilDate) : ℤ :=
  (daysFromCivil d + 4) % 7

/-- `PUBLIC_HOLIDAYS` from `holiday-blackout-engine.ts`, as `(month, day)`
pairs (New Year, Human Rights Day, Freedom Day, Workers Day, Youth Day,
National Womens Day, Heritage Day, Day of Reconciliation, Christmas Day,
Day of Goodwill). -/
def PUBLIC_HOLIDAYS : List (ℕ × ℕ) :=
  [(1, 1), (3, 21), (4, 27), (5, 1), (6, 16), (8, 9), (9, 24), (12, 16), (12, 25), (12, 26)]

/-- `HolidayBlackoutEngine.isPublicHoliday`. -/
def isPublicHoliday (d : CivilDate) : Bool :=
  PUBLIC_HOLIDAYS.any (fun h => h.1 == d.month && h.2 == d.day)

/-- `HolidayBlackoutEngine.isBusinessDay`: not a weekend, not a public holiday. -/
def isBusinessDay (d : CivilDate) : Bool :=
  !(dayOfWeek d == 0 || dayOfWeek d == 6) && !isPublicHoliday d

/-- `BlackoutException` from `holiday-blackout-engine.ts`. -/
inductive ExceptionType where
  | urgentApplication
  | interimRelief
  | criminalMatter
  | appealDeadline
  | courtOrder
deriving DecidableEq, Repr

/-- `BlackoutException` record. -/
structure BlackoutException where
  type : ExceptionType
  description : String
  criteria : List String
  requiresJustification : Bool
deriving DecidableEq, Repr

/-- `HolidayBlackoutEngine.getBlackoutExceptions`: the fixed list of five
exception rules. -/
def getBlackoutExceptions : List BlackoutException :=
  [{ type := ExceptionType.urgentApplication
     description := "Urgent applications requiring immediate relief"
     criteria := ["Imminent harm or prejudice", "Constitutional rights at stake",
       "Time-sensitive commercial matters"]
     requiresJustification := true },
   { type := ExceptionType.interimRelief
     description := "Interim relief applications"
     criteria := ["Preservation of status quo", "Prevention of irreparable harm",
       "Interim interdicts"]
     requiresJustification := true },
   { type := ExceptionType.criminalMatter
     description := "Criminal matters with custody implications"
     criteria := ["Bail applications", "Custody time limits", "Constitutional deadlines"]
     requiresJustification := false },
   { type := ExceptionType.appealDeadline
     description := "Appeal deadlines that cannot be extended"
     criteria := ["Statutory appeal periods", "Constitutional Court deadlines",
       "SCA filing deadlines"]
     requiresJustification := false },
   { type := ExceptionType.courtOrder
     description := "Compliance with existing court orders"
     criteria := ["Court-ordered deadlines", "Contempt proceedings", "Mandated timelines"]
     requiresJustification := false }]

/-- `BlackoutPeriod` record. -/
structure BlackoutPeriod where
  year : ℤ
  startDate : CivilDate
  endDate : CivilDate
  description : String
  exceptions : List BlackoutException
deriving DecidableEq, Repr

/-- `HolidayBlackoutEngine.getBlackoutPeriod`: 16 December of `year` through
15 January of `year + 1`. -/
def getBlackoutPeriod (year : ℤ) : BlackoutPeriod :=
  { year := year
    startDate := ⟨year, 12, 16⟩
    endDate := ⟨year + 1, 1, 15⟩
    description := "Annual court holiday blackout period"
    exceptions := getBlackoutExceptions }

/-- `BlackoutValidationResult` record. -/
structure BlackoutValidationResult where
  isInBlackout : Bool
  blackoutPeriod : Option BlackoutPeriod := none
  applicableExceptions : List BlackoutException
  canProceed : Bool
  justificationRequired : Bool
  warningMessage : Option String := none
deriving DecidableEq, Repr

/-- `HolidayBlackoutEngine.isInBlackoutPeriod`: checks the current year's
window, and for January dates the previous year's window. -/
def isInBlackoutPeriod (date : CivilDate) : BlackoutValidationResult :=
  let blackoutPeriod := getBlackoutPeriod date.year
  let inBlackout (bp : BlackoutPeriod) : Prop := dateLe bp.startDate date ∧ dateLe date bp.endDate
  let found : Option BlackoutPeriod :=
    if inBlackout blackoutPeriod then some blackoutPeriod
    else if date.month = 1 then
      let prevYearBlackout := getBlackoutPeriod (date.year - 1)
      if inBlackout prevYearBlackout then some prevYearBlackout else none
    else none
  match found with
  | none =>
    { isInBlackout := false
      applicableExceptions := []
      canProceed := true
      justificationRequired := false }
  | some relevantBlackout =>
    { isInBlackout := true
      blackoutPeriod := some relevantBlackout
      applicableExceptions := getBlackoutExceptions
      canProceed := getBlackoutExceptions.length > 0
      justificationRequired := true
      warningMessage :=
        some "Date falls within holiday blackout period. Special justification may be required." }

/-- `DateAdjustmentResult` record. -/
structure DateAdjustmentResult where
  originalDate : CivilDate
  adjustedDate : CivilDate
  wasAdjusted : Bool
  reason : String
  blackoutPeriod : Option BlackoutPeriod := none
  daysSkipped : ℤ
deriving DecidableEq, Repr

/-- Deadline types from `DeadlineCalculationContext`. -/
inductive DeadlineType where
  | inspection
  | objection
  | setDown
  | appeal
  | service
  | filing
deriving DecidableEq, Repr

/-- Matter types from `DeadlineCalculationContext`. -/
inductive MatterType where
  | civil
  | criminal
  | appeal
  | urgent
deriving DecidableEq, Repr

/-- `DeadlineCalculationContext` (`courtType` is never read by the engine). -/
structure DeadlineCalculationContext where
  baseDate : CivilDate
  deadlineType : DeadlineType
  daysToAdd : ℕ
  includeWeekends : Bool
  matterType : MatterType
  isUrgent : Bool
deriving DecidableEq, Repr

/-- Fuel bound for the source's unbounded `while` loops over dates; business
days recur within any handful of consecutive days, so any large bound is
conservative. -/
def dateFuel : ℕ := 1000000

/-- `HolidayBlackoutEngine.adjustToBusinessDay` (a `while` loop in the source),
with explicit fuel. -/
def adjustToBusinessDayFuel : ℕ → Bool → CivilDate → CivilDate
  | 0, _, d => d
  | fuel + 1, forward, d =>
    if isBusinessDay d then d
    else adjustToBusinessDayFuel fuel forward (if forward then nextDay d else prevDay d)

/-- `HolidayBlackoutEngine.addBusinessDays` (a `while` loop in the source),
with explicit fuel: steps one calendar day at a time, counting business days. -/
def addBusinessDaysFuel : ℕ → CivilDate → ℕ → CivilDate
  | _, d, 0 => d
  | 0, d, _ + 1 => d
  | fuel + 1, d, n + 1 =>
    let d1 := nextDay d
    if isBusinessDay d1 then addBusinessDaysFuel fuel d1 n
    else addBusinessDaysFuel fuel d1 (n + 1)

/-- `HolidayBlackoutEngine.adjustDateForBlackout`. -/
def adjustDateForBlackout (date : CivilDate) (skipForward : Bool) : DateAdjustmentResult :=
  let validation := isInBlackoutPeriod date
  match validation.isInBlackout, validation.blackoutPeriod with
  | true, some blackoutPeriod =>
    let adjusted0 := if skipForward then nextDay blackoutPeriod.endDate
      else prevDay blackoutPeriod.startDate
    let daysSkipped :=
      if skipForward then daysFromCivil adjusted0 - daysFromCivil date
      else daysFromCivil date - daysFromCivil adjusted0
    { originalDate := date
      adjustedDate := adjustToBusinessDayFuel dateFuel skipForward adjusted0
      wasAdjusted := true
      reason := "Date adjusted to skip " ++ blackoutPeriod.description
      blackoutPeriod := some blackoutPeriod
      daysSkipped := daysSkipped }
  | _, _ =>
    { originalDate := date
      adjustedDate := date
      wasAdjusted := false
      reason := "Date not in blackout period"
      daysSkipped := 0 }

/-- `HolidayBlackoutEngine.checkExceptionApplicability` (its `exceptions`
parameter is never read by the source). -/
def checkExceptionApplicability (context : DeadlineCalculationContext) :
    Bool × String :=
  if context.isUrgent then (true, "Urgent matter exception applies")
  else if context.matterType = MatterType.criminal then
    (true, "Criminal matter exception applies")
  else if context.deadlineType = DeadlineType.appeal ∧ context.matterType = MatterType.appeal then
    (true, "Appeal deadline exception applies")
  else (false, "No applicable exceptions found")

/-- The landing date computed by `calculateDeadlineWithBlackout` before any
blackout adjustment. -/
def deadlineTarget (context : DeadlineCalculationContext) : CivilDate :=
  if context.includeWeekends then addDays context.daysToAdd context.baseDate
  else addBusinessDaysFuel dateFuel context.baseDate context.daysToAdd

/-- `HolidayBlackoutEngine.calculateDeadlineWithBlackout`. -/
def calculateDeadlineWithBlackout (context : DeadlineCalculationContext) :
    DateAdjustmentResult :=
  let targetDate := deadlineTarget context
  let validation := isInBlackoutPeriod targetDate
  if validation.isInBlackout = false then
    { originalDate := context.baseDate
      adjustedDate := targetDate
      wasAdjusted := false
      reason := "Deadline not affected by blackout period"
      daysSkipped := 0 }
  else
    let hasException := checkExceptionApplicability context
    if hasException.1 then
      { originalDate := context.baseDate
        adjustedDate := targetDate
        wasAdjusted := false
        reason := "Exception applies: " ++ hasException.2
        blackoutPeriod := validation.blackoutPeriod
        daysSkipped := 0 }
    else adjustDateForBlackout targetDate true

/-! ## Theorems -/

/-- C10: for every date, the blackout validation result of
`isInBlackoutPeriod` has `canProceed = true` — outside the blackout
trivially, and inside it because the applicable-exceptions list is the fixed
non-empty list of five exception rules — and `justificationRequired` holds
exactly when the date is in blackout. -/
theorem isInBlackoutPeriod_canProceed (d : CivilDate) :
    (isInBlackoutPeriod d).canProceed = true ∧
    (isInBlackoutPeriod d).justificationRequired = (isInBlackoutPeriod d).isInBlackout ∧
    ((isInBlackoutPeriod d).isInBlackout = true →
      (isInBlackoutPeriod d).applicableExceptions = getBlackoutExceptions ∧
      (isInBlackoutPeriod d).applicableExceptions.length = 5) := by
  unfold isInBlackoutPeriod
  dsimp only
  split
  · simp
  · simp [getBlackoutExceptions]

/-- C6: every date from 16 December of year `y` through 31 December, and from
1 January through 15 January of year `y + 1`, is in blackout (January dates
are matched against the previous year's window), while 15 December of `y` and
16 January of `y + 1` — one day before and after the window — are not. -/
theorem blackout_window_membership (y : ℤ) (dd : ℕ) :
    (16 ≤ dd → dd ≤ 31 → (isInBlackoutPeriod ⟨y, 12, dd⟩).isInBlackout = true) ∧
    (1 ≤ dd → dd ≤ 15 → (isInBlackoutPeriod ⟨y + 1, 1, dd⟩).isInBlackout = true) ∧
    (isInBlackoutPeriod ⟨y, 12, 15⟩).isInBlackout = false ∧
    (isInBlackoutPeriod ⟨y + 1, 1, 16⟩).isInBlackout = false := by
  refine ⟨fun h16 h31 => ?_, fun h1 h15 => ?_, ?_, ?_⟩ <;>
  · simp only [isInBlackoutPeriod, getBlackoutPeriod, dateLe]
    repeat' split
    all_goals simp_all

/-- A left fold adding `f` over a list equals the initial value plus the sum
of the mapped list. -/
theorem foldl_add_eq_sum (f : BillItem → ℚ) :
    ∀ (l : List BillItem) (a : ℚ), l.foldl (fun s i => s + f i) a = a + (l.map f).sum := by
  intro l
  induction l with
  | nil => intro a; simp
  | cons x xs ih =>
    intro a
    simp only [List.foldl_cons, List.map_cons, List.sum_cons, ih]
    ring

/-- The five totals of `calculateBill` are each a sum of a filtered mapping. -/
theorem calculateBill_totals (items : List BillItem) :
    (calculateBill items).subtotalFees =
      ((items.filter fun i =>
        jsStrFalsy i.source || i.source == some "fees" ||
          strIncludes i.tariffItemId "-").map (fun i => i.amountExVat)).sum ∧
    (calculateBill items).subtotalDisbursements =
      ((items.filter fun i => i.source == some "disbursement").map
        (fun i => i.amountExVat)).sum ∧
    (calculateBill items).subtotalCounsel =
      ((items.filter fun i => i.source == some "counsel").map (fun i => i.amountExVat)).sum ∧
    (calculateBill items).totalVat = (items.map (fun i => i.vat)).sum ∧
    (calculateBill items).grandTotal =
      (calculateBill items).subtotalFees + (calculateBill items).subtotalDisbursements +
        (calculateBill items).subtotalCounsel + (calculateBill items).totalVat := by
  unfold calculateBill
  simp only [foldl_add_eq_sum]
  refine ⟨by ring_nf, by ring_nf, by ring_nf, by ring_nf, by ring_nf⟩

/-- C9: aggregation is idempotent and order-independent — `calculateBill` is a
pure function, so repeated application to the same list yields the same
totals, and for any permutation of the line items every subtotal, the VAT
total and the grand total are unchanged. -/
theorem calculateBill_idempotent_perm (items itemsPermuted : List BillItem)
    (h : items.Perm itemsPermuted) :
    calculateBill items = calculateBill items ∧
    (calculateBill items).subtotalFees = (calculateBill itemsPermuted).subtotalFees ∧
    (calculateBill items).subtotalDisbursements =
      (calculateBill itemsPermuted).subtotalDisbursements ∧
    (calculateBill items).subtotalCounsel = (calculateBill itemsPermuted).subtotalCounsel ∧
    (calculateBill items).totalVat = (calculateBill itemsPermuted).totalVat ∧
    (calculateBill items).grandTotal = (calculateBill itemsPermuted).grandTotal := by
  have sums : ∀ (p : BillItem → Bool) (f : BillItem → ℚ),
      ((items.filter p).map f).sum = ((itemsPermuted.filter p).map f).sum := by
    intro p f
    exact ((h.filter p).map f).sum_eq
  have hv : (items.map (fun i => i.vat)).sum = (itemsPermuted.map (fun i => i.vat)).sum :=
    (h.map (fun i => i.vat)).sum_eq
  obtain ⟨f1, f2, f3, f4, f5⟩ := calculateBill_totals items
  obtain ⟨g1, g2, g3, g4, g5⟩ := calculateBill_totals itemsPermuted
  refine ⟨rfl, ?_, ?_, ?_, ?_, ?_⟩
  · rw [f1, g1, sums]
  · rw [f2, g2, sums]
  · rw [f3, g3, sums]
  · rw [f4, g4, hv]
  · rw [f5, g5, f1, g1, f2, g2, f3, g3, f4, g4, sums, sums, sums, hv]

/-- The quantity transformation claimed for time-based items: round up to the
configured increment, then raise to `minimumUnits` if below it (when the
minimum is set and non-zero), then lower to `maximumUnits` if above it. -/
def roundThenClamp (item : TariffItem) (units roundingMinutes : ℚ) : ℚ :=
  jsClampMax item.maximumUnits
    (jsClampMin item.minimumUnits (roundToMinutes units roundingMinutes))

/-- C1: for every time-based (`"per hour"`) rate item without a cap,
`calculateBillItem` first rounds the requested quantity up to the configured
increment, then applies the minimum clamp, then the maximum clamp, and the
resulting amount excluding VAT is the adjusted quantity times the rate. -/
theorem calculateBillItem_time_pipeline (tariffs : List CourtTariff)
    (vatRate roundingMinutes : ℚ) (courtCode scale itemNumber : String) (units : ℚ)
    (item : TariffItem)
    (hitem : getTariffItem tariffs courtCode scale itemNumber = some item)
    (hunit : item.unit = "per hour")
    (hcap : item.capAmount = none) :
    (calculateBillItem tariffs vatRate roundingMinutes courtCode scale itemNumber units).map
        (fun bi => (bi.units, bi.amountExVat)) =
      some (roundThenClamp item units roundingMinutes,
        roundThenClamp item units roundingMinutes * item.rate) := by
  unfold calculateBillItem roundThenClamp
  rw [hitem]
  simp [hunit, hcap, jsApplyCap]

/-- Sample data for witnesses: the Magistrates' Court Scale A consultation
item from `src/data/sa-tariffs.ts` (item 1.3, R2280.00 per hour, minimum
0.25 hours). -/
def consultationItem : TariffItem :=
  { itemNumber := "1.3"
    label := "Attendance at consultations"
    description := "Meetings with clients, witnesses, experts"
    rate := 2280
    unit := "per hour"
    minimumUnits := some (1 / 4)
    vatApplicable := true
    category := Category.fees
    subcategory := some "attendance" }

/-- Sample data for witnesses: the Magistrates' Court Scale A perusal item
from `src/data/sa-tariffs.ts` (item 1.1, R285.00 per page). -/
def perusalItem : TariffItem :=
  { itemNumber := "1.1"
    label := "Perusal of documents"
    description := "Reading and examining documents, correspondence, pleadings"
    rate := 285
    unit := "per page"
    vatApplicable := true
    category := Category.fees
    subcategory := some "preparation" }

/-- Sample data for witnesses: a Magistrates' Court Scale A tariff version. -/
def mcScaleA : CourtTariff :=
  { courtType := "Magistrates Court"
    courtCode := "MC"
    scale := "A"
    effectiveFrom := 0
    items := [perusalItem, consultationItem] }

/-- Sample tariff list for witnesses. -/
def sampleTariffs : List CourtTariff := [mcScaleA]

/-- Witness for C1: the spec's time-rounding scenario — R2280.00/hour,
minimum 0.25 hours, requested 0.12 hours, 6-minute (0.1 hour) increment —
rounds to 0.2 h, clamps to 0.25 h and yields `amountExVAT = 570.00`. -/
theorem calculateBillItem_time_pipeline_witness :
    getTariffItem sampleTariffs "MC" "A" "1.3" = some consultationItem ∧
    consultationItem.unit = "per hour" ∧
    consultationItem.capAmount = none ∧
    roundToMinutes (12 / 100) 6 = 1 / 5 ∧
    roundThenClamp consultationItem (12 / 100) 6 = 1 / 4 ∧
    (calculateBillItem sampleTariffs (15 / 100) 6 "MC" "A" "1.3" (12 / 100)).map
        (fun bi => (bi.units, bi.amountExVat)) = some (1 / 4, 570) := by
  have hitem : getTariffItem sampleTariffs "MC" "A" "1.3" = some consultationItem := by
    simp [getTariffItem, getTariff, sampleTariffs, mcScaleA, List.find?, perusalItem,
      consultationItem]
  have hpipe := calculateBillItem_time_pipeline sampleTariffs (15 / 100) 6 "MC" "A" "1.3"
    (12 / 100) consultationItem hitem rfl rfl
  refine ⟨hitem, rfl, rfl, ?_, ?_, ?_⟩
  · norm_num [roundToMinutes, Rat.ceil]
  · norm_num [roundThenClamp, roundToMinutes, Rat.ceil, consultationItem, jsClampMin,
      jsClampMax]
  · rw [hpipe]
    norm_num [roundThenClamp, roundToMinutes, Rat.ceil, consultationItem, jsClampMin,
      jsClampMax]

/-- C4: under party-and-party billing, a line item that passes the
costs-order, necessity, reasonableness and restricted-items tests but whose
item code requires voucher evidence (the engine's disbursement-category
proxy) and has no voucher is hard-blocked: `allowed = false` with the
missing-voucher reason, for any rate lookup. -/
theorem partyAndParty_missing_voucher_blocks
    (lookupItem : BillingScopeContext → Option ScaleLookupItem)
    (context : BillingScopeContext)
    (hbt : context.billType = BillType.partyAndParty)
    (hco : isCostsOrderRecoverable context.costsOrder = true)
    (hnec : context.isNecessary = true)
    (hrea : context.isReasonable = true)
    (hres : getPartyAndPartyRestrictions.any (fun r =>
      strIncludes context.itemCode r.1 ||
        strIncludes (strToLower context.description) r.2) = false)
    (hvreq : requiresVoucherEvidence context.itemCode = true)
    (hnov : context.hasVoucher = false) :
    validateBillingScope lookupItem context =
      { allowed := false
        reason := some "Voucher required for disbursement recovery"
        requiresVoucher := true
        taxationRisk := TaxationRisk.high } := by
  unfold validateBillingScope
  rw [hbt]
  unfold validatePartyAndParty
  simp [hco, hnec, hrea, hres, hvreq, hnov]

/-- Sample context for the C4 witness: a sheriff disbursement under a
costs-in-the-cause order, necessary and reasonable, but unvouched. -/
def sheriffContext : BillingScopeContext :=
  { billType := BillType.partyAndParty
    costsOrder := CostsOrder.costsInTheCause
    itemCode := "SHERIFF-01"
    description := "Service of summons by sheriff"
    amount := 850
    isNecessary := true
    isReasonable := true
    hasVoucher := false
    courtType := "MC"
    scale := "A" }

/-- Witness for C4: the sheriff disbursement without a voucher is blocked
with the missing-voucher reason. -/
theorem partyAndParty_missing_voucher_blocks_witness :
    sheriffContext.billType = BillType.partyAndParty ∧
    isCostsOrderRecoverable sheriffContext.costsOrder = true ∧
    sheriffContext.isNecessary = true ∧
    sheriffContext.isReasonable = true ∧
    getPartyAndPartyRestrictions.any (fun r =>
      strIncludes sheriffContext.itemCode r.1 ||
        strIncludes (strToLower sheriffContext.description) r.2) = false ∧
    requiresVoucherEvidence sheriffContext.itemCode = true ∧
    sheriffContext.hasVoucher = false ∧
    validateBillingScope (fun _ => none) sheriffContext =
      { allowed := false
        reason := some "Voucher required for disbursement recovery"
        requiresVoucher := true
        taxationRisk := TaxationRisk.high } := by
  refine ⟨rfl, by decide, rfl, rfl, by decide, by decide, rfl, ?_⟩
  exact partyAndParty_missing_voucher_blocks (fun _ => none) sheriffContext rfl (by decide)
    rfl rfl (by decide) (by decide) rfl

/-- C2: in every line computed by `calculateTariff`, a billing party that is
not a registered VAT vendor gets `vatAmount = 0` even when the rate item has
`vatApplicable = true`; and a non-zero `vatAmount` occurs only when both
`vatApplicable` and the vendor flag hold, in which case
`vatAmount = calculatedAmount × vatRate` (the engine's `VAT_RATE = 0.15`). -/
theorem calculateTariff_vat_vendor_gate (tariffs : List CourtTariff) (now : ℤ)
    (lineItem : BillLineItem) (context : TariffCalculationContext)
    (res : TariffLookupResult)
    (h : calculateTariff tariffs now lineItem context = Except.ok res) :
    (context.isVATVendor = false → res.vatAmount = 0) ∧
    (res.vatAmount ≠ 0 →
      res.item.vatApplicable = true ∧ context.isVATVendor = true ∧
        res.vatAmount = res.calculatedAmount * VAT_RATE) := by
  unfold calculateTariff at h
  split at h
  · exact absurd h (by simp)
  · split at h
    · exact absurd h (by simp)
    · rename_i tariff _ tariffItem _
      simp only [Except.ok.injEq] at h
      subst h
      constructor
      · intro hv
        simp [hv]
      · intro hnz
        by_cases hcond : tariffItem.vatApplicable = true ∧ context.isVATVendor = true
        · simp [hcond.1, hcond.2]
        · exact absurd (by simp [hcond]) hnz

/-- Witness line item: 4 pages of perusal (item 1.1) on a date covered by the
sample tariff. -/
def perusalLine : BillLineItem :=
  { date := 100, tariffCode := "1.1", quantity := 4, unit := "per page", isVouched := true }

/-- Witness context: attorney-and-client billing for a non-VAT-vendor. -/
def nonVendorContext : TariffCalculationContext :=
  { billType := BillType.attorneyAndClient, isVATVendor := false }

/-- Witness for C2: perusal by a non-VAT-vendor yields `vatAmount = 0` even
though the item is VAT-applicable. -/
theorem calculateTariff_vat_vendor_gate_witness :
    ∃ res, calculateTariff sampleTariffs 1000 perusalLine nonVendorContext = Except.ok res ∧
      nonVendorContext.isVATVendor = false ∧ perusalItem.vatApplicable = true ∧
      res.vatAmount = 0 := by
  have hok : (calculateTariff sampleTariffs 1000 perusalLine nonVendorContext).isOk = true := by
    decide
  cases hres : calculateTariff sampleTariffs 1000 perusalLine nonVendorContext with
  | error e => rw [hres] at hok; exact absurd hok (by simp [Except.isOk, Except.toBool])
  | ok res =>
    exact ⟨res, rfl, rfl, rfl,
      (calculateTariff_vat_vendor_gate sampleTariffs 1000 perusalLine nonVendorContext res
        hres).1 rfl⟩

/-- C3 (amended): a requested quantity ≤ 0 is not rejected before
calculation; instead `calculateTariff` records the compliance issue
`"Quantity must be greater than zero"` and marks the result non-compliant,
while amounts are still computed. -/
theorem quantity_nonpositive_flagged_not_rejected (tariffs : List CourtTariff) (now : ℤ)
    (lineItem : BillLineItem) (context : TariffCalculationContext)
    (res : TariffLookupResult)
    (hq : lineItem.quantity ≤ 0)
    (h : calculateTariff tariffs now lineItem context = Except.ok res) :
    "Quantity must be greater than zero" ∈ res.compliance.issues ∧
    res.compliance.isCompliant = false := by
  unfold calculateTariff at h
  split at h
  · exact absurd h (by simp)
  · split at h
    · exact absurd h (by simp)
    · rename_i tariff _ tariffItem _
      simp only [Except.ok.injEq] at h
      subst h
      have hmem : "Quantity must be greater than zero" ∈
          (validateQuantityAndUnits lineItem tariffItem).2 := by
        simp [validateQuantityAndUnits, hq]
      constructor
      · simpa using Or.inl hmem
      · have hne : ((validateQuantityAndUnits lineItem tariffItem).2 ++
            checkVoucherRequirements tariffItem lineItem) ≠ [] :=
          List.ne_nil_of_mem (List.mem_append_left _ hmem)
        simp [List.length_eq_zero, hne]
        intro h1
        exact absurd h1 (List.ne_nil_of_mem hmem)

/-- A zero-quantity consultation line on a covered date. -/
def zeroQuantityLine : BillLineItem :=
  { date := 100, tariffCode := "1.3", quantity := 0, unit := "per hour", isVouched := true }

/-- Counterexample for C3: a requested quantity of 0 is not rejected — the
calculation returns a result (no error), silently substitutes the 0.25-hour
minimum and computes `calculatedAmount = 570`, merely recording a compliance
issue. -/
theorem quantity_zero_computes_amount :
    (calculateTariff sampleTariffs 1000 zeroQuantityLine nonVendorContext).map
        (fun r => (r.calculatedAmount, r.compliance.isCompliant, r.compliance.issues)) =
      Except.ok (570, false, ["Quantity must be greater than zero"]) := by
  have e1 : ("1.1" == "1.3") = false := by decide
  have e2 : ("1.3" == "1.3") = true := by decide
  norm_num [calculateTariff, getTariffForDate, findTariffItem, validateQuantityAndUnits,
    applyBillTypeConstraints, checkVoucherRequirements, sampleTariffs, mcScaleA,
    perusalItem, consultationItem, zeroQuantityLine, nonVendorContext, List.find?, VAT_RATE,
    e1, e2, Except.map, jsClampMin, jsClampMax, jsApplyCap]

/-- Witness for the amended C3: the zero-quantity line is flagged with the
quantity issue and marked non-compliant. -/
theorem quantity_nonpositive_flagged_witness :
    zeroQuantityLine.quantity ≤ 0 ∧
    ∃ res, calculateTariff sampleTariffs 1000 zeroQuantityLine nonVendorContext =
        Except.ok res ∧
      "Quantity must be greater than zero" ∈ res.compliance.issues ∧
      res.compliance.isCompliant = false := by
  refine ⟨le_refl 0, ?_⟩
  have hok : (calculateTariff sampleTariffs 1000 zeroQuantityLine nonVendorContext).isOk =
      true := by decide
  cases hres : calculateTariff sampleTariffs 1000 zeroQuantityLine nonVendorContext with
  | error e => rw [hres] at hok; exact absurd hok (by simp [Except.isOk, Except.toBool])
  | ok res =>
    exact ⟨res, rfl,
      quantity_nonpositive_flagged_not_rejected sampleTariffs 1000 zeroQuantityLine
        nonVendorContext res (le_refl 0) hres⟩

/-- The cap step bounds the amount whenever the cap is non-zero. -/
theorem jsApplyCap_le (c amount : ℚ) (hc : c ≠ 0) : jsApplyCap (some c) amount ≤ c := by
  have hdef : jsApplyCap (some c) amount = if c ≠ 0 ∧ amount > c then c else amount := rfl
  rw [hdef]
  split
  · exact le_refl c
  · rename_i hno
    rw [not_and_or] at hno
    rcases hno with h1 | h2
    · exact absurd hc (by simpa using h1)
    · exact le_of_not_lt (by simpa using h2)

/-- C7 (amended): whenever `capAmount` is set *and non-zero*, the computed
amount excluding VAT is bounded by the cap, in both engines and for any input
quantity (a zero cap is falsy in the source's truthiness guard and is not
enforced). -/
theorem cap_bounds_amount :
    (∀ (tariffs : List CourtTariff) (vatRate roundingMinutes : ℚ)
        (courtCode scale itemNumber : String) (units : ℚ) (item : TariffItem) (c : ℚ)
        (bi : BillItem),
      getTariffItem tariffs courtCode scale itemNumber = some item →
      item.capAmount = some c → c ≠ 0 →
      calculateBillItem tariffs vatRate roundingMinutes courtCode scale itemNumber units =
        some bi →
      bi.amountExVat ≤ c) ∧
    (∀ (tariffs : List CourtTariff) (now : ℤ) (lineItem : BillLineItem)
        (context : TariffCalculationContext) (res : TariffLookupResult) (c : ℚ),
      calculateTariff tariffs now lineItem context = Except.ok res →
      res.item.capAmount = some c → c ≠ 0 →
      res.calculatedAmount ≤ c) := by
  constructor
  · intro tariffs vatRate roundingMinutes courtCode scale itemNumber units item c bi
      hitem hcap hcnz hbi
    unfold calculateBillItem at hbi
    rw [hitem] at hbi
    simp only [Option.some.injEq] at hbi
    subst hbi
    simp only [hcap]
    exact jsApplyCap_le c _ hcnz
  · intro tariffs now lineItem context res c h hcap hcnz
    unfold calculateTariff at h
    split at h
    · exact absurd h (by simp)
    · split at h
      · exact absurd h (by simp)
      · simp only [Except.ok.injEq] at h
        subst h
        simp only at hcap ⊢
        rw [hcap]
        exact jsApplyCap_le c _ hcnz

/-- An item whose cap is set to zero: the truthiness guard skips it. -/
def zeroCapItem : TariffItem :=
  { itemNumber := "9.9"
    label := "Zero-capped item"
    description := "Item with a zero cap amount"
    rate := 100
    unit := "per page"
    capAmount := some 0
    vatApplicable := false
    category := Category.fees }

/-- An item with a non-zero cap for the amended-claim witness. -/
def cappedItem : TariffItem :=
  { itemNumber := "9.8"
    label := "Capped item"
    description := "Item with a non-zero cap amount"
    rate := 100
    unit := "per page"
    capAmount := some 500
    vatApplicable := false
    category := Category.fees }

/-- A Scale B tariff holding the cap test items. -/
def capTestTariff : CourtTariff :=
  { courtType := "Magistrates Court"
    courtCode := "MC"
    scale := "B"
    effectiveFrom := 0
    items := [zeroCapItem, cappedItem] }

/-- Counterexample for C7 as stated: with `capAmount` set to `0` (a set but
falsy value), one page at rate 100 yields `amountExVat = 100`, which exceeds
the cap — the cap is not enforced. -/
theorem cap_zero_not_enforced :
    zeroCapItem.capAmount = some 0 ∧
    (calculateBillItem [capTestTariff] (15 / 100) 15 "MC" "B" "9.9" 1).map
        (fun bi => bi.amountExVat) = some 100 ∧
    ¬ ((100 : ℚ) ≤ 0) := by
  refine ⟨rfl, ?_, by norm_num⟩
  norm_num [calculateBillItem, getTariffItem, getTariff, capTestTariff, zeroCapItem,
    List.find?, jsClampMin, jsClampMax, jsApplyCap, calculateVAT, Option.map]
  exact fun h => absurd h (by decide)

/-- Witness for the amended C7: the non-zero cap of 500 bounds the amount 1000
computed for 10 pages at rate 100. -/
theorem cap_bounds_amount_witness :
    getTariffItem [capTestTariff] "MC" "B" "9.8" = some cappedItem ∧
    cappedItem.capAmount = some 500 ∧ (500 : ℚ) ≠ 0 ∧
    ∃ bi, calculateBillItem [capTestTariff] (15 / 100) 15 "MC" "B" "9.8" 10 = some bi ∧
      bi.amountExVat ≤ 500 := by
  have hitem : getTariffItem [capTestTariff] "MC" "B" "9.8" = some cappedItem := by decide
  refine ⟨hitem, rfl, by norm_num, ?_⟩
  cases hbi : calculateBillItem [capTestTariff] (15 / 100) 15 "MC" "B" "9.8" 10 with
  | none =>
    exact absurd hbi (by simp [calculateBillItem, hitem])
  | some bi =>
    exact ⟨bi, rfl, cap_bounds_amount.1 [capTestTariff] (15 / 100) 15 "MC" "B" "9.8" 10
      cappedItem 500 bi hitem rfl (by norm_num) hbi⟩

/-- The spec's half-open version-validity range: `[effectiveFrom, effectiveTo)`,
open-ended when `effectiveTo` is absent (spec §4.1). -/
def inHalfOpenRange (t : CourtTariff) (d : ℤ) : Bool :=
  decide (t.effectiveFrom ≤ d) &&
    (match t.effectiveTo with
     | some e => decide (d < e)
     | none => true)

/-- Two tariff versions with disjoint half-open validity ranges (the data
model's no-overlap invariant). -/
def rangesDisjoint (a b : CourtTariff) : Prop :=
  ∀ d : ℤ, ¬ (inHalfOpenRange a d = true ∧ inHalfOpenRange b d = true)

/-- An open-ended version effective from time 200. -/
def openEndedTariff : CourtTariff :=
  { courtType := "High Court", courtCode := "HC", scale := "A",
    effectiveFrom := 200, items := [] }

/-- A version that expired exactly when `openEndedTariff` began. -/
def expiredTariff : CourtTariff :=
  { courtType := "High Court", courtCode := "HC", scale := "A",
    effectiveFrom := 0, effectiveTo := some 200, items := [] }

/-- Counterexample for C8 as stated: with the newest-first list
`[openEndedTariff, expiredTariff]` (sorted, disjoint half-open ranges), the
open-ended version's range contains `onDate = 200`, yet when the engine
evaluates with `Date.now() = 100 < onDate` it returns the expired version:
the closed-interval check `workDate ≤ effectiveTo ?? Date.now()` rejects the
open-ended version for work dates after `now` and accepts the boundary date
of the expired one. -/
theorem tariff_resolution_counterexample :
    inHalfOpenRange openEndedTariff 200 = true ∧
    openEndedTariff ∈ [openEndedTariff, expiredTariff] ∧
    [openEndedTariff, expiredTariff].Pairwise
      (fun a b => b.effectiveFrom ≤ a.effectiveFrom) ∧
    getTariffForDate [openEndedTariff, expiredTariff] 100 200 = some expiredTariff ∧
    expiredTariff ≠ openEndedTariff := by
  refine ⟨by decide, by simp, ?_, by decide, by decide⟩
  simp [openEndedTariff, expiredTariff]

/-- Unfolding characterisation of the half-open range check. -/
theorem inHalfOpenRange_true_iff (t : CourtTariff) (d : ℤ) :
    inHalfOpenRange t d = true ↔
      (t.effectiveFrom ≤ d ∧ ∀ e, t.effectiveTo = some e → d < e) := by
  cases h : t.effectiveTo <;> simp [inHalfOpenRange, h]

/-- If some version's half-open range contains the work date then — given
newest-first sorting, pairwise-disjoint nonempty ranges and a work date not
after `now` — the engine's closed-interval scan finds exactly that version. -/
theorem find_closed_of_halfOpen (now d : ℤ) (hnow : d ≤ now) :
    ∀ (l : List CourtTariff),
      l.Pairwise (fun a b => b.effectiveFrom ≤ a.effectiveFrom) →
      l.Pairwise rangesDisjoint →
      (∀ t ∈ l, ∀ e, t.effectiveTo = some e → t.effectiveFrom < e) →
      ∀ V ∈ l, inHalfOpenRange V d = true →
      l.find? (fun t =>
          decide (t.effectiveFrom ≤ d) && decide (d ≤ t.effectiveTo.getD now)) =
        some V := by
  intro l
  induction l with
  | nil => intro _ _ _ V hV; exact absurd hV (List.not_mem_nil V)
  | cons t ts ih =>
    intro hsort hdisj hne V hV hVrange
    rcases List.mem_cons.mp hV with rfl | hVts
    · apply List.find?_cons_of_pos
      rw [inHalfOpenRange_true_iff] at hVrange
      have h2 : d ≤ V.effectiveTo.getD now := by
        cases he : V.effectiveTo with
        | none => simpa using hnow
        | some e => simpa using le_of_lt (hVrange.2 e he)
      simp [hVrange.1, h2]
    · have hrel1 : V.effectiveFrom ≤ t.effectiveFrom := (List.pairwise_cons.mp hsort).1 V hVts
      have hrel2 : rangesDisjoint t V := (List.pairwise_cons.mp hdisj).1 V hVts
      have hpt : (decide (t.effectiveFrom ≤ d) && decide (d ≤ t.effectiveTo.getD now)) =
          false := by
        by_contra hcon
        rw [Bool.not_eq_false, Bool.and_eq_true, decide_eq_true_eq, decide_eq_true_eq]
          at hcon
        obtain ⟨hf, hto⟩ := hcon
        cases he : t.effectiveTo with
        | none =>
          refine hrel2 d ⟨?_, hVrange⟩
          rw [inHalfOpenRange_true_iff]
          exact ⟨hf, fun e2 he2 => by rw [he] at he2; cases he2⟩
        | some e =>
          rw [he] at hto
          simp only [Option.getD_some] at hto
          rcases lt_or_eq_of_le hto with hlt | heq
          · refine hrel2 d ⟨?_, hVrange⟩
            rw [inHalfOpenRange_true_iff]
            refine ⟨hf, fun e2 he2 => ?_⟩
            rw [he] at he2
            injection he2 with h3
            omega
          · have hflt : t.effectiveFrom < e := hne t (List.mem_cons_self t ts) e he
            rw [inHalfOpenRange_true_iff] at hVrange
            refine hrel2 t.effectiveFrom ⟨?_, ?_⟩
            · rw [inHalfOpenRange_true_iff]
              refine ⟨le_refl _, fun e2 he2 => ?_⟩
              rw [he] at he2
              injection he2 with h3
              omega
            · rw [inHalfOpenRange_true_iff]
              refine ⟨hrel1, fun e2 he2 => ?_⟩
              have := hVrange.2 e2 he2
              omega
      rw [List.find?_cons_of_neg _ (by simp [hpt])]
      exact ih (List.pairwise_cons.mp hsort).2 (List.pairwise_cons.mp hdisj).2
        (fun u hu e he => hne u (List.mem_cons_of_mem t hu) e he) V hVts hVrange

/-- When no version's half-open range contains the work date, the engine's
result coincides with the plain fallback scan for the most recent version
with `effectiveFrom ≤ workDate` (the closed-interval scan can still fire on
an expired version's end boundary, but then that version is the fallback's
answer as well). -/
theorem getTariffForDate_no_containment (now d : ℤ) (hnow : d ≤ now) :
    ∀ (l : List CourtTariff),
      l.Pairwise (fun a b => b.effectiveFrom ≤ a.effectiveFrom) →
      l.Pairwise rangesDisjoint →
      (∀ t ∈ l, ∀ e, t.effectiveTo = some e → t.effectiveFrom < e) →
      (∀ V ∈ l, inHalfOpenRange V d = false) →
      getTariffForDate l now d = l.find? (fun t => decide (t.effectiveFrom ≤ d)) := by
  intro l
  induction l with
  | nil => intro _ _ _ _; rfl
  | cons t ts ih =>
    intro hsort hdisj hne hnc
    by_cases hp1 : (decide (t.effectiveFrom ≤ d) && decide (d ≤ t.effectiveTo.getD now)) = true
    · have hp2 : decide (t.effectiveFrom ≤ d) = true := by
        rw [Bool.and_eq_true] at hp1
        exact hp1.1
      unfold getTariffForDate
      have hboth := hp1
      rw [Bool.and_eq_true] at hboth
      simp [List.find?_cons, hp2, hboth.2]
    · rw [Bool.not_eq_true] at hp1
      by_cases hp2 : decide (t.effectiveFrom ≤ d) = true
      · have hfrom : t.effectiveFrom ≤ d := by simpa using hp2
        have hexp : ∃ e, t.effectiveTo = some e ∧ e < d := by
          cases he : t.effectiveTo with
          | none =>
            exfalso
            rw [he] at hp1
            simp [hfrom, hnow] at hp1
          | some e =>
            rw [he] at hp1
            simp only [Option.getD_some, Bool.and_eq_false_iff, decide_eq_false_iff_not,
              not_le] at hp1
            rcases hp1 with h1 | h2
            · omega
            · exact ⟨e, rfl, h2⟩
        obtain ⟨e, he, hed⟩ := hexp
        have hfe : t.effectiveFrom < e := hne t (List.mem_cons_self t ts) e he
        have hnone : ts.find? (fun u =>
            decide (u.effectiveFrom ≤ d) && decide (d ≤ u.effectiveTo.getD now)) = none := by
          rw [List.find?_eq_none]
          intro u hu hpu
          rw [Bool.and_eq_true, decide_eq_true_eq, decide_eq_true_eq] at hpu
          obtain ⟨huf, hut⟩ := hpu
          have hucontain : inHalfOpenRange u d = false := hnc u (List.mem_cons_of_mem t hu)
          cases hue : u.effectiveTo with
          | none =>
            have hutrue : inHalfOpenRange u d = true := by
              rw [inHalfOpenRange_true_iff]
              exact ⟨huf, fun e2 he2 => by rw [hue] at he2; cases he2⟩
            rw [hutrue] at hucontain
            cases hucontain
          | some eu =>
            rw [hue] at hut
            simp only [Option.getD_some] at hut
            rcases lt_or_eq_of_le hut with hlt | heq
            · have : inHalfOpenRange u d = true := by
                rw [inHalfOpenRange_true_iff]
                refine ⟨huf, fun e2 he2 => ?_⟩
                rw [hue] at he2
                injection he2 with h3
                omega
              rw [this] at hucontain
              cases hucontain
            · have hufe : u.effectiveFrom < eu := hne u (List.mem_cons_of_mem t hu) eu hue
              have hdisjtu : rangesDisjoint t u := (List.pairwise_cons.mp hdisj).1 u hu
              have husort : u.effectiveFrom ≤ t.effectiveFrom :=
                (List.pairwise_cons.mp hsort).1 u hu
              refine hdisjtu t.effectiveFrom ⟨?_, ?_⟩
              · rw [inHalfOpenRange_true_iff]
                refine ⟨le_refl _, fun e2 he2 => ?_⟩
                rw [he] at he2
                injection he2 with h3
                omega
              · rw [inHalfOpenRange_true_iff]
                refine ⟨husort, fun e2 he2 => ?_⟩
                rw [hue] at he2
                injection he2 with h3
                omega
        unfold getTariffForDate
        rw [List.find?_cons_of_neg _ (by simp [hp1]), hnone]
      · rw [Bool.not_eq_true] at hp2
        have heq : getTariffForDate (t :: ts) now d = getTariffForDate ts now d := by
          unfold getTariffForDate
          rw [List.find?_cons_of_neg _ (by simp [hp1]),
            List.find?_cons_of_neg _ (by simp [hp2])]
        rw [heq, List.find?_cons_of_neg _ (by simp [hp2])]
        exact ih (List.pairwise_cons.mp hsort).2 (List.pairwise_cons.mp hdisj).2
          (fun u hu e he => hne u (List.mem_cons_of_mem t hu) e he)
          (fun V hV => hnc V (List.mem_cons_of_mem t hV))

/-- The engine returns no tariff exactly when no version's `effectiveFrom` is
on or before the work date (in particular when the list is empty — no
schedule for the court/scale key). -/
theorem getTariffForDate_eq_none_iff (l : List CourtTariff) (now d : ℤ) :
    getTariffForDate l now d = none ↔ ∀ t ∈ l, d < t.effectiveFrom := by
  unfold getTariffForDate
  constructor
  · intro h
    cases hfind : l.find? (fun t =>
        decide (t.effectiveFrom ≤ d) && decide (d ≤ t.effectiveTo.getD now)) with
    | some t => rw [hfind] at h; cases h
    | none =>
      rw [hfind] at h
      rw [List.find?_eq_none] at h
      intro t ht
      have := h t ht
      simpa using this
  · intro h
    have h1 : l.find? (fun t =>
        decide (t.effectiveFrom ≤ d) && decide (d ≤ t.effectiveTo.getD now)) = none := by
      rw [List.find?_eq_none]
      intro t ht
      simp only [Bool.and_eq_true, decide_eq_true_eq, not_and]
      intro hf
      exact absurd hf (not_le.mpr (h t ht))
    have h2 : l.find? (fun t => decide (t.effectiveFrom ≤ d)) = none := by
      rw [List.find?_eq_none]
      intro t ht
      simpa using not_le.mpr (h t ht)
    rw [h1, h2]

/-- In a newest-first list, the fallback scan returns the most recent version
with `effectiveFrom ≤ workDate`. -/
theorem fallback_finds_most_recent (d : ℤ) :
    ∀ (l : List CourtTariff),
      l.Pairwise (fun a b => b.effectiveFrom ≤ a.effectiveFrom) →
      ∀ t, l.find? (fun t => decide (t.effectiveFrom ≤ d)) = some t →
        t.effectiveFrom ≤ d ∧
        ∀ u ∈ l, u.effectiveFrom ≤ d → u.effectiveFrom ≤ t.effectiveFrom := by
  intro l
  induction l with
  | nil => intro _ t h; cases h
  | cons a ts ih =>
    intro hsort t hfind
    by_cases hpa : decide (a.effectiveFrom ≤ d) = true
    · simp only [List.find?_cons, hpa] at hfind
      injection hfind with h1
      subst h1
      refine ⟨by simpa using hpa, fun u hu hud => ?_⟩
      rcases List.mem_cons.mp hu with rfl | huts
      · exact le_refl _
      · exact (List.pairwise_cons.mp hsort).1 u huts
    · rw [Bool.not_eq_true] at hpa
      simp only [List.find?_cons, hpa] at hfind
      obtain ⟨h1, h2⟩ := ih (List.pairwise_cons.mp hsort).2 t hfind
      refine ⟨h1, fun u hu hud => ?_⟩
      rcases List.mem_cons.mp hu with rfl | huts
      · exact absurd hud (by simpa using hpa)
      · exact h2 u huts hud

/-- C8 (amended): given non-overlapping, newest-first tariff versions with
nonempty ranges, and a work date no later than the evaluation time `now`
(the engine closes open-ended ranges at `Date.now()`), rate resolution
(1) returns the version whose `[effectiveFrom, effectiveTo)` range contains
the work date when one exists, (2) otherwise returns the fallback scan's
result, which (4) is the most recent version with `effectiveFrom ≤ workDate`,
and (3) fails exactly when no version at all precedes the work date (in
particular when no schedule exists, i.e. the list is empty). -/
theorem tariff_resolution_amended (tariffs : List CourtTariff) (now onDate : ℤ)
    (hsort : tariffs.Pairwise (fun a b => b.effectiveFrom ≤ a.effectiveFrom))
    (hdisj : tariffs.Pairwise rangesDisjoint)
    (hne : ∀ t ∈ tariffs, ∀ e, t.effectiveTo = some e → t.effectiveFrom < e)
    (hnow : onDate ≤ now) :
    (∀ V ∈ tariffs, inHalfOpenRange V onDate = true →
      getTariffForDate tariffs now onDate = some V) ∧
    ((∀ V ∈ tariffs, inHalfOpenRange V onDate = false) →
      getTariffForDate tariffs now onDate =
        tariffs.find? (fun t => decide (t.effectiveFrom ≤ onDate))) ∧
    (getTariffForDate tariffs now onDate = none ↔
      ∀ t ∈ tariffs, onDate < t.effectiveFrom) ∧
    (∀ t, tariffs.find? (fun t => decide (t.effectiveFrom ≤ onDate)) = some t →
      t.effectiveFrom ≤ onDate ∧
      ∀ u ∈ tariffs, u.effectiveFrom ≤ onDate → u.effectiveFrom ≤ t.effectiveFrom) := by
  refine ⟨?_, ?_, ?_, ?_⟩
  · intro V hV hVrange
    unfold getTariffForDate
    rw [find_closed_of_halfOpen now onDate hnow tariffs hsort hdisj hne V hV hVrange]
  · intro hnc
    exact getTariffForDate_no_containment now onDate hnow tariffs hsort hdisj hne hnc
  · exact getTariffForDate_eq_none_iff tariffs now onDate
  · exact fallback_finds_most_recent onDate tariffs hsort

/-- Witness for the amended C8: with `now = 1000`, the work date 250 lies in
the open-ended version's range and resolution returns it. -/
theorem tariff_resolution_amended_witness :
    (250 : ℤ) ≤ 1000 ∧
    inHalfOpenRange openEndedTariff 250 = true ∧
    getTariffForDate [openEndedTariff, expiredTariff] 1000 250 = some openEndedTariff := by
  have hsort : [openEndedTariff, expiredTariff].Pairwise
      (fun a b => b.effectiveFrom ≤ a.effectiveFrom) := by
    simp [openEndedTariff, expiredTariff]
  have hdisj : [openEndedTariff, expiredTariff].Pairwise rangesDisjoint := by
    refine List.Pairwise.cons (fun b hb => ?_) ?_
    · have hbeq : b = expiredTariff := by simpa using hb
      subst hbeq
      intro x hx
      rcases hx with ⟨h1, h2⟩
      simp [inHalfOpenRange, openEndedTariff, expiredTariff] at h1 h2
      omega
    · exact List.Pairwise.cons (fun b hb => absurd hb (List.not_mem_nil b)) List.Pairwise.nil
  have hne : ∀ t ∈ [openEndedTariff, expiredTariff], ∀ e, t.effectiveTo = some e →
      t.effectiveFrom < e := by
    intro t ht e he
    rcases List.mem_cons.mp ht with rfl | ht2
    · simp [openEndedTariff] at he
    · have hteq : t = expiredTariff := by simpa using ht2
      subst hteq
      simp [expiredTariff] at he ⊢
      omega
  refine ⟨by norm_num, by decide, ?_⟩
  exact (tariff_resolution_amended [openEndedTariff, expiredTariff] 1000 250 hsort hdisj hne
    (by norm_num)).1 openEndedTariff (by simp) (by decide)

/-- The forward business-day adjustment loop returns the first business day
on or after its start, provided one exists within the fuel bound. -/
theorem adjustToBusinessDayFuel_first (fuel : ℕ) (d : CivilDate)
    (h : ∃ k, k < fuel ∧ isBusinessDay (addDays k d) = true) :
    ∃ k, adjustToBusinessDayFuel fuel true d = addDays k d ∧
      isBusinessDay (addDays k d) = true ∧
      ∀ j, j < k → isBusinessDay (addDays j d) = false := by
  induction fuel generalizing d with
  | zero =>
    obtain ⟨k, hk, _⟩ := h
    omega
  | succ n ih =>
    by_cases hb : isBusinessDay d = true
    · refine ⟨0, ?_, ?_, ?_⟩
      · simp [adjustToBusinessDayFuel, hb, addDays]
      · simpa [addDays] using hb
      · intro j hj; omega
    · rw [Bool.not_eq_true] at hb
      have hstep : adjustToBusinessDayFuel (n + 1) true d =
          adjustToBusinessDayFuel n true (nextDay d) := by
        simp [adjustToBusinessDayFuel, hb]
      obtain ⟨k, hk, hbk⟩ := h
      have hk0 : k ≠ 0 := by
        intro h0
        subst h0
        rw [show addDays 0 d = d from rfl, hb] at hbk
        cases hbk
      obtain ⟨k', rfl⟩ := Nat.exists_eq_succ_of_ne_zero hk0
      have hex : ∃ m, m < n ∧ isBusinessDay (addDays m (nextDay d)) = true :=
        ⟨k', by omega, hbk⟩
      obtain ⟨m, hm1, hm2, hm3⟩ := ih (nextDay d) hex
      refine ⟨m + 1, ?_, ?_, ?_⟩
      · rw [hstep, hm1]
        rfl
      · exact hm2
      · intro j hj
        cases j with
        | zero => simpa [addDays] using hb
        | succ j' => exact hm3 j' (by omega)

/-- C5: when the computed landing date of a deadline falls inside a blackout
window, an urgent matter, a criminal matter, or an appeal deadline on an
appeal matter is returned unadjusted with `wasAdjusted = false` and a reason
naming the exception; otherwise the returned date is the first business day
strictly after the blackout end date (not merely end + 1 calendar day) with
`wasAdjusted = true`. -/
theorem calculateDeadlineWithBlackout_spec (context : DeadlineCalculationContext)
    (bp : BlackoutPeriod)
    (hin : (isInBlackoutPeriod (deadlineTarget context)).isInBlackout = true)
    (hbp : (isInBlackoutPeriod (deadlineTarget context)).blackoutPeriod = some bp)
    (hbd : ∃ k, k < dateFuel ∧ isBusinessDay (addDays k (nextDay bp.endDate)) = true) :
    (context.isUrgent = true →
      calculateDeadlineWithBlackout context =
        { originalDate := context.baseDate
          adjustedDate := deadlineTarget context
          wasAdjusted := false
          reason := "Exception applies: Urgent matter exception applies"
          blackoutPeriod := some bp
          daysSkipped := 0 }) ∧
    (context.isUrgent = false → context.matterType = MatterType.criminal →
      calculateDeadlineWithBlackout context =
        { originalDate := context.baseDate
          adjustedDate := deadlineTarget context
          wasAdjusted := false
          reason := "Exception applies: Criminal matter exception applies"
          blackoutPeriod := some bp
          daysSkipped := 0 }) ∧
    (context.isUrgent = false → context.matterType = MatterType.appeal →
      context.deadlineType = DeadlineType.appeal →
      calculateDeadlineWithBlackout context =
        { originalDate := context.baseDate
          adjustedDate := deadlineTarget context
          wasAdjusted := false
          reason := "Exception applies: Appeal deadline exception applies"
          blackoutPeriod := some bp
          daysSkipped := 0 }) ∧
    (context.isUrgent = false → context.matterType ≠ MatterType.criminal →
      ¬ (context.deadlineType = DeadlineType.appeal ∧
          context.matterType = MatterType.appeal) →
      (calculateDeadlineWithBlackout context).wasAdjusted = true ∧
      ∃ k, (calculateDeadlineWithBlackout context).adjustedDate =
          addDays k (nextDay bp.endDate) ∧
        isBusinessDay (addDays k (nextDay bp.endDate)) = true ∧
        ∀ j, j < k → isBusinessDay (addDays j (nextDay bp.endDate)) = false) := by
  refine ⟨?_, ?_, ?_, ?_⟩
  · intro hurg
    unfold calculateDeadlineWithBlackout
    simp [hin, hbp, checkExceptionApplicability, hurg]
  · intro hurg hcrim
    unfold calculateDeadlineWithBlackout
    simp [hin, hbp, checkExceptionApplicability, hurg, hcrim]
  · intro hurg happ hdt
    unfold calculateDeadlineWithBlackout
    simp [hin, hbp, checkExceptionApplicability, hurg, happ, hdt]
  · intro hurg hcrim happ
    have hexc : checkExceptionApplicability context = (false, "No applicable exceptions found") := by
      unfold checkExceptionApplicability
      simp [hurg, hcrim, happ]
    have hres : calculateDeadlineWithBlackout context =
        adjustDateForBlackout (deadlineTarget context) true := by
      unfold calculateDeadlineWithBlackout
      simp [hin, hexc]
    have hadj : adjustDateForBlackout (deadlineTarget context) true =
        { originalDate := deadlineTarget context
          adjustedDate := adjustToBusinessDayFuel dateFuel true (nextDay bp.endDate)
          wasAdjusted := true
          reason := "Date adjusted to skip " ++ bp.description
          blackoutPeriod := some bp
          daysSkipped := daysFromCivil (nextDay bp.endDate) -
            daysFromCivil (deadlineTarget context) } := by
      unfold adjustDateForBlackout
      simp [hin, hbp]
    obtain ⟨k, hk1, hk2, hk3⟩ := adjustToBusinessDayFuel_first dateFuel (nextDay bp.endDate) hbd
    rw [hres, hadj]
    exact ⟨rfl, k, hk1, hk2, hk3⟩

/-- The spec's deadline scenario: base date 10 Dec 2024, 10 business days,
ordinary civil matter. -/
def deadlineScenario : DeadlineCalculationContext :=
  { baseDate := ⟨2024, 12, 10⟩
    deadlineType := DeadlineType.inspection
    daysToAdd := 10
    includeWeekends := false
    matterType := MatterType.civil
    isUrgent := false }

/-- Witness for C5: the scenario lands on 27 Dec 2024 (inside the blackout)
and is adjusted to Thursday 16 Jan 2025, the first business day after the
blackout ends, with `wasAdjusted = true`. -/
theorem calculateDeadlineWithBlackout_spec_witness :
    (isInBlackoutPeriod (deadlineTarget deadlineScenario)).isInBlackout = true ∧
    deadlineTarget deadlineScenario = ⟨2024, 12, 27⟩ ∧
    (calculateDeadlineWithBlackout deadlineScenario).wasAdjusted = true ∧
    (calculateDeadlineWithBlackout deadlineScenario).adjustedDate = ⟨2025, 1, 16⟩ ∧
    isBusinessDay ⟨2025, 1, 16⟩ = true := by
  have h4 := (calculateDeadlineWithBlackout_spec deadlineScenario (getBlackoutPeriod 2024)
    (by decide) (by decide) ⟨0, by decide, by decide⟩).2.2.2 rfl (by decide) (by decide)
  exact ⟨by decide, by decide, h4.1, by decide, by decide⟩

/-- Witness for C10: 20 Dec 2024 is in blackout, yet `canProceed` holds and
the five exception rules apply. -/
theorem isInBlackoutPeriod_canProceed_witness :
    (isInBlackoutPeriod ⟨2024, 12, 20⟩).canProceed = true ∧
    (isInBlackoutPeriod ⟨2024, 12, 20⟩).isInBlackout = true ∧
    (isInBlackoutPeriod ⟨2024, 12, 20⟩).applicableExceptions.length = 5 := by
  have h := isInBlackoutPeriod_canProceed ⟨2024, 12, 20⟩
  exact ⟨h.1, by decide, (h.2.2 (by decide)).2⟩

/-- Witness for C6: concrete dates around the 2024/2025 window. -/
theorem blackout_window_membership_witness :
    ((16 : ℕ) ≤ 20 ∧ (20 : ℕ) ≤ 31) ∧
    (isInBlackoutPeriod ⟨2024, 12, 20⟩).isInBlackout = true ∧
    (isInBlackoutPeriod ⟨2024 + 1, 1, 10⟩).isInBlackout = true ∧
    (isInBlackoutPeriod ⟨2024, 12, 15⟩).isInBlackout = false ∧
    (isInBlackoutPeriod ⟨2024 + 1, 1, 16⟩).isInBlackout = false := by
  have h20 := blackout_window_membership 2024 20
  have h10 := blackout_window_membership 2024 10
  exact ⟨⟨by norm_num, by norm_num⟩, h20.1 (by norm_num) (by norm_num),
    h10.2.1 (by norm_num) (by norm_num), h20.2.2.1, h20.2.2.2⟩

/-- A fee line for aggregation witnesses (4 pages of perusal). -/
def feesSample : BillItem :=
  { tariffItemId := "MC-A-1.1", description := "Perusal of documents", units := 4,
    rateApplied := 285, amountExVat := 1140, vat := 171, totalAmount := 1311 }

/-- A disbursement line for aggregation witnesses. -/
def disbSample : BillItem :=
  { tariffItemId := "DISBURSEMENT", description := "Sheriff fees", units := 1,
    rateApplied := 850, amountExVat := 850, vat := 0, totalAmount := 850,
    source := some "disbursement" }

/-- Witness for C9: swapping two lines leaves the totals unchanged. -/
theorem calculateBill_idempotent_perm_witness :
    [feesSample, disbSample].Perm [disbSample, feesSample] ∧
    (calculateBill [feesSample, disbSample]).subtotalFees =
      (calculateBill [disbSample, feesSample]).subtotalFees ∧
    (calculateBill [feesSample, disbSample]).totalVat =
      (calculateBill [disbSample, feesSample]).totalVat ∧
    (calculateBill [feesSample, disbSample]).grandTotal =
      (calculateBill [disbSample, feesSample]).grandTotal := by
  have hperm : [feesSample, disbSample].Perm [disbSample, feesSample] :=
    List.Perm.swap disbSample feesSample []
  have h := calculateBill_idempotent_perm _ _ hperm
  exact ⟨hperm, h.2.1, h.2.2.2.2.1, h.2.2.2.2.2⟩
